import Mathlib

/-!
Verification of `plot_analysis.py` (Algorithmic-Insites).

The script is a single-file matplotlib program: a fixed sample dataset
(`create_sample_data`), four rendering routines that draw charts and write
one PNG each, a `main` that calls them in sequence with progress prints,
and a top-level `__main__` guard with two catch-all exception handlers.

Embedding choices:
* numbers are modelled as exact rationals (`ℚ`); decimal literals in the
  source (e.g. `1.5`, `0.018`) are exact decimal fractions;
* the observable behaviour of each routine is a trace of `Event`s: every
  call that carries data (plt.plot / loglog / semilogy / bar / annotate /
  axvspan / savefig / show / print) produces one event; pure styling
  calls (xlabel, title, legend, grid, figsize, xticks, tight_layout)
  carry no data and produce no event;
* continuous theoretical curves drawn from a generated mesh are recorded
  as labelled `plotCurveRef` events; the actual real-valued functions of
  the complexity cheatsheet are modelled separately over `ℝ`
  (`cheatsheetCurves`), since the claims are about their pointwise values;
* the module import block and the `__main__` try/except are modelled by
  an `Env` of available packages and an explicit outcome type.
-/

namespace PlotAnalysis

/-- One observable action of the script: a data-carrying chart primitive,
an image write, a figure display, or a console print. -/
inductive Event where
  | figure
  | subplot (rows cols idx : ℕ)
  | plotSeries (x y : List ℚ) (label : String)
  | plotCurveRef (label : String)
  | barSeries (pos heights : List ℚ) (label : String)
  | annotateVal (v : ℚ)
  | axvspanBand (lo hi : ℚ) (label : String)
  | savefig (path : String)
  | showFig
  | print (s : String)
deriving DecidableEq

/-- The record returned by `create_sample_data` (lines 18-44): five parallel
sorting sequences plus three parallel search sequences. -/
structure SampleData where
  sizes : List ℚ
  bubble : List ℚ
  insertion : List ℚ
  merge : List ℚ
  quick : List ℚ
  search_sizes : List ℚ
  linear : List ℚ
  binary : List ℚ
deriving DecidableEq

/-- `create_sample_data` (lines 18-44): the fixed literal dataset. -/
def create_sample_data : SampleData where
  sizes := [1000, 2000, 5000, 10000, 20000]
  bubble := [12, 45, 280, 1100, 4400]
  insertion := [8, 30, 190, 750, 3000]
  merge := [2, 4, 12, 25, 55]
  quick := [1.5, 3.5, 10, 22, 48]
  search_sizes := [1000, 5000, 10000, 50000, 100000]
  linear := [0.8, 4.2, 8.5, 42, 85]
  binary := [0.01, 0.015, 0.018, 0.025, 0.028]

/-- The inlined literals of `plot_fibonacci_analysis` (line 152). -/
def n_values : List ℚ := [10, 15, 20, 25, 30, 35, 40]

/-- Inlined literal of `plot_fibonacci_analysis` (line 155). -/
def naive_calls : List ℚ := [177, 1973, 21891, 242785, 2692537, 29860703, 331160281]

/-- Inlined literal of `plot_fibonacci_analysis` (line 156). -/
def memo_calls : List ℚ := [19, 29, 39, 49, 59, 69, 79]

/-- Inlined literal of `plot_fibonacci_analysis` (line 158). -/
def naive_times : List ℚ := [0.001, 0.01, 0.1, 1.2, 13.5, 152, 1680]

/-- Inlined literal of `plot_fibonacci_analysis` (line 159). -/
def memo_times : List ℚ := [0.001, 0.001, 0.001, 0.001, 0.002, 0.002, 0.002]

/-- `np.arange n` as a list of rationals. -/
def arange (n : ℕ) : List ℚ := (List.range n).map (fun i => (i : ℚ))

/-- Line 98: `bubble_growth = data['bubble'][1:] / data['bubble'][:-1]`
(numpy elementwise division of the two slices). -/
def bubble_growth (d : SampleData) : List ℚ :=
  List.zipWith (· / ·) (d.bubble.drop 1) d.bubble.dropLast

/-- Line 99: `merge_growth = data['merge'][1:] / data['merge'][:-1]`. -/
def merge_growth (d : SampleData) : List ℚ :=
  List.zipWith (· / ·) (d.merge.drop 1) d.merge.dropLast

/-- Line 134: `efficiency_ratio = data['linear'] / data['binary']`
(numpy elementwise division). -/
def efficiency_ratio (d : SampleData) : List ℚ :=
  List.zipWith (· / ·) d.linear d.binary

/-- `plot_sorting_comparison` (lines 46-114): its trace of data-carrying
calls.  Styling-only calls (xlabel, title, legend, grid, xticks,
tight_layout) are omitted; the two theoretical dashed curves of the
log-log subplot are drawn from a generated mesh and recorded by label. -/
def plot_sorting_comparison (d : SampleData) : List Event :=
  [.figure,
   .subplot 2 2 1,
   .plotSeries d.sizes d.bubble "Bubble Sort O(n²)",
   .plotSeries d.sizes d.insertion "Insertion Sort O(n²)",
   .plotSeries d.sizes d.merge "Merge Sort O(n log n)",
   .plotSeries d.sizes d.quick "Quick Sort O(n log n)",
   .subplot 2 2 2,
   .plotSeries d.sizes d.bubble "Bubble Sort",
   .plotSeries d.sizes d.insertion "Insertion Sort",
   .plotSeries d.sizes d.merge "Merge Sort",
   .plotSeries d.sizes d.quick "Quick Sort",
   .plotCurveRef "Theoretical O(n²)",
   .plotCurveRef "Theoretical O(n log n)",
   .subplot 2 2 3,
   .plotSeries d.sizes d.merge "Merge Sort",
   .plotSeries d.sizes d.quick "Quick Sort",
   .subplot 2 2 4,
   .barSeries ((arange (bubble_growth d).length).map (· - 0.2)) (bubble_growth d)
     "Bubble Sort Growth Rate",
   .barSeries ((arange (bubble_growth d).length).map (· + 0.2)) (merge_growth d)
     "Merge Sort Growth Rate",
   .savefig "sorting_analysis.png",
   .showFig]

/-- `plot_search_comparison` (lines 116-148): its trace.  The annotation
loop (lines 142-144) emits one value annotation per ratio entry. -/
def plot_search_comparison (d : SampleData) : List Event :=
  [.figure,
   .subplot 1 2 1,
   .plotSeries d.search_sizes d.linear "Linear Search O(n)",
   .plotSeries d.search_sizes d.binary "Binary Search O(log n)",
   .subplot 1 2 2,
   .plotSeries d.search_sizes (efficiency_ratio d) ""]
  ++ (efficiency_ratio d).map Event.annotateVal
  ++ [.savefig "search_analysis.png",
      .showFig]

/-- `plot_fibonacci_analysis` (lines 150-192): takes no parameters; all
series are the module-level inlined literals.  Line 186 annotates the
value `naive_times[-1] / memo_times[-1]`. -/
def plot_fibonacci_analysis : List Event :=
  [.figure,
   .subplot 1 2 1,
   .plotSeries n_values naive_calls "Naive Fibonacci O(2ⁿ)",
   .plotSeries n_values memo_calls "Memoized Fibonacci O(n)",
   .subplot 1 2 2,
   .plotSeries n_values naive_times "Naive Fibonacci",
   .plotSeries n_values memo_times "Memoized Fibonacci",
   .annotateVal (naive_times.getLast! / memo_times.getLast!),
   .savefig "fibonacci_analysis.png",
   .showFig]

/-- The six curve labels of `create_complexity_cheatsheet` (lines 201-206). -/
def cheatsheetLabels : List String :=
  ["O(1) - Hash table lookup",
   "O(log n) - Binary search",
   "O(n) - Linear search",
   "O(n log n) - Merge/Quick sort",
   "O(n²) - Bubble/Insertion sort",
   "O(2ⁿ) - Naive Fibonacci"]

/-- `create_complexity_cheatsheet` (lines 194-221): its trace.  The six
curves are drawn over the mesh `np.logspace(1, 4, 1000)` and recorded by
label here; their pointwise values are modelled by `cheatsheetCurves`. -/
def create_complexity_cheatsheet : List Event :=
  [Event.figure]
  ++ cheatsheetLabels.map Event.plotCurveRef
  ++ [.axvspanBand 1 100 "Small n: Simple algorithms OK",
      .axvspanBand 100 10000 "Medium n: Efficiency matters",
      .axvspanBand 10000 100000 "Large n: Only efficient algorithms",
      .savefig "complexity_cheatsheet.png",
      .showFig]

/-- Line 226: `"=" * 40`. -/
def sepLine : String := String.mk (List.replicate 40 '=')

/-- `main` up to and including the search confirmation print
(lines 225-238). -/
def mainHead (d : SampleData) : List Event :=
  [.print "Algorithm Performance Analysis",
   .print sepLine,
   .print "Generating performance analysis plots..."]
  ++ plot_sorting_comparison d
  ++ [.print "✓ Sorting algorithm comparison saved as \x27sorting_analysis.png\x27"]
  ++ plot_search_comparison d
  ++ [.print "✓ Search algorithm comparison saved as \x27search_analysis.png\x27"]

/-- `main` from the fibonacci confirmation print to the end
(lines 241-250); no part of it mentions the dataset. -/
def mainTail : List Event :=
  [.print "✓ Fibonacci recursion analysis saved as \x27fibonacci_analysis.png\x27"]
  ++ create_complexity_cheatsheet
  ++ [.print "✓ Complexity reference chart saved as \x27complexity_cheatsheet.png\x27",
      .print "\nAnalysis complete! Use these plots in your report.",
      .print "\nTo use your own data:",
      .print "1. Export measurements to CSV format",
      .print "2. Replace the create_sample_data() function",
      .print "3. Modify column names to match your CSV structure"]

/-- The body of `main` (lines 223-250) run with dataset record `d` in
place of the `data` local variable. -/
def mainEvents (d : SampleData) : List Event :=
  mainHead d ++ plot_fibonacci_analysis ++ mainTail

/-- `main` (lines 223-250): `data = create_sample_data()` then the four
routines interleaved with prints. -/
def main : List Event := mainEvents create_sample_data

/-- Is the event an image-file write (`plt.savefig`)? -/
def isSavefig : Event → Bool
  | .savefig _ => true
  | _ => false

/-- Is the event one of the per-file confirmation prints (the lines
starting with the check mark, lines 235/238/241/244)? -/
def isConfirmation : Event → Bool
  | .print s =>
      match s.data with
      | c :: _ => c == '✓'
      | [] => false
  | _ => false

/-! ### Real-valued curves of the complexity cheatsheet

`create_complexity_cheatsheet` draws each curve at the mesh points
`n = np.logspace(1, 4, 1000)`; the functions below are the exact
real-valued expressions of lines 201-206. -/

/-- Line 206: the expression drawn for the curve labeled
`O(2ⁿ) - Naive Fibonacci` is `2**np.log2(n)`. -/
noncomputable def curveTwoPow : ℝ → ℝ := fun n => (2 : ℝ) ^ Real.logb 2 n

/-- The six (label, function) pairs of lines 201-206.  `np.ones_like`
gives the constant 1; `np.log2` is log base 2. -/
noncomputable def cheatsheetCurves : List (String × (ℝ → ℝ)) :=
  [("O(1) - Hash table lookup", fun _ => 1),
   ("O(log n) - Binary search", fun n => Real.logb 2 n),
   ("O(n) - Linear search", fun n => n),
   ("O(n log n) - Merge/Quick sort", fun n => n * Real.logb 2 n),
   ("O(n²) - Bubble/Insertion sort", fun n => n ^ 2),
   ("O(2ⁿ) - Naive Fibonacci", curveTwoPow)]

/-- The three shaded background bands of lines 209-211, as
(low, high, label). -/
def cheatsheetBands : List (ℚ × ℚ × String) :=
  [(1, 100, "Small n: Simple algorithms OK"),
   (100, 10000, "Medium n: Efficiency matters"),
   (10000, 100000, "Large n: Only efficient algorithms")]

/-- Line 198: point `i` of `np.logspace(1, 4, 1000)`, i.e.
`10 ^ (1 + 3*i/999)` for `i < 1000` (from 10 to 10000). -/
noncomputable def logspacePoint (i : ℕ) : ℝ :=
  (10 : ℝ) ^ ((1 : ℝ) + 3 * (i : ℝ) / 999)

/-! ### The module import block and the `__main__` guard -/

/-- A Python exception, as far as the top-level handlers distinguish
them: an `ImportError` naming the missing module, or anything else. -/
inductive PyError where
  | importError (module : String)
  | otherError (msg : String)
deriving DecidableEq

/-- Which third-party packages are importable in the environment the
script runs in. -/
structure Env where
  hasMatplotlib : Bool
  hasNumpy : Bool
  hasPandas : Bool
deriving DecidableEq

/-- The module-level import block (lines 12-15), which runs before any
other statement of the file: it fails with an `ImportError` as soon as
one of the imported packages is missing. -/
def moduleImports (env : Env) : Except PyError Unit :=
  if ¬env.hasMatplotlib then .error (.importError "matplotlib")
  else if ¬env.hasNumpy then .error (.importError "numpy")
  else if ¬env.hasPandas then .error (.importError "pandas")
  else .ok ()

/-- A run of `main()` under the guard: the events emitted before
returning or raising, and the exception if one was raised. -/
def MainRun := List Event × Option PyError

/-- The `try/except` of lines 256-263 around `main()`: an `ImportError`
raised inside the call prints the remediation hint, any other exception
prints the generic message; either way the handler returns normally. -/
def guardedMain (run : MainRun) : List Event :=
  match run with
  | (evs, none) => evs
  | (evs, some (.importError m)) =>
      evs ++ [.print ("Missing required package: " ++ m),
              .print "Install with: pip install matplotlib pandas numpy"]
  | (evs, some (.otherError msg)) =>
      evs ++ [.print ("Error: " ++ msg),
              .print "Make sure you have the required data and packages installed."]

/-- How a process run of the script ends: normally after emitting a
trace, or by an uncaught exception escaping the interpreter. -/
inductive Outcome where
  | finished (events : List Event)
  | crashed (events : List Event) (e : PyError)
deriving DecidableEq

/-- Running the script file: the module-level imports execute first
(outside any `try`), and only if they succeed does the `__main__` guard
(lines 252-263) run the protected call to `main()`. -/
def runScript (env : Env) (run : MainRun) : Outcome :=
  match moduleImports env with
  | .error e => .crashed [] e
  | .ok () => .finished (guardedMain run)

/-- The two `main` calls that receive the dataset record, run in
sequence with explicit state passing of the record: each routine only
reads `data` (there is no assignment to the dict anywhere in their
bodies), so each hands the record on unchanged. -/
def runSortingThenSearch (d : SampleData) : List Event × SampleData :=
  let r₁ : List Event × SampleData := (plot_sorting_comparison d, d)
  let r₂ : List Event × SampleData := (plot_search_comparison r₁.2, r₁.2)
  (r₁.1 ++ r₂.1, r₂.2)

/-- Index in `main`'s trace where the `plot_fibonacci_analysis()` call
begins. -/
def fibStart (d : SampleData) : ℕ := (mainHead d).length

/-- The slice of `main`'s trace produced by the
`plot_fibonacci_analysis()` call. -/
def fibSegment (d : SampleData) : List Event :=
  ((mainEvents d).drop (fibStart d)).take plot_fibonacci_analysis.length

/-! ## Helper lemmas -/

/-- `getD` of a numpy-style elementwise division. -/
theorem zipWith_div_getD (l₁ l₂ : List ℚ) (i : ℕ)
    (h₁ : i < l₁.length) (h₂ : i < l₂.length) :
    (List.zipWith (· / ·) l₁ l₂).getD i 0 = l₁.getD i 0 / l₂.getD i 0 := by
  induction l₁ generalizing l₂ i with
  | nil => simp at h₁
  | cons a t ih =>
    cases l₂ with
    | nil => simp at h₂
    | cons b u =>
      cases i with
      | zero => simp
      | succ n =>
        simp only [List.zipWith_cons_cons, List.getD_cons_succ]
        exact ih u n (by simpa using h₁) (by simpa using h₂)

/-- `getD` of the growth-rate construction `l[1:] / l[:-1]`. -/
theorem growth_getD (l : List ℚ) (i : ℕ) (h : i + 1 < l.length) :
    (List.zipWith (· / ·) (l.drop 1) l.dropLast).getD i 0 =
      l.getD (i + 1) 0 / l.getD i 0 := by
  induction l generalizing i with
  | nil => simp at h
  | cons a t ih =>
    cases t with
    | nil => simp at h
    | cons b u =>
      cases i with
      | zero => simp [List.dropLast]
      | succ n =>
        have h' : n + 1 < (b :: u).length := by simpa using h
        have := ih n h'
        simpa [List.dropLast, List.getD_cons_succ] using this

/-- The fibonacci slice of any `main` run is the fixed block emitted by
`plot_fibonacci_analysis`. -/
theorem fibSegment_eq (d : SampleData) :
    fibSegment d = plot_fibonacci_analysis := by
  unfold fibSegment mainEvents fibStart
  rw [List.append_assoc, List.drop_left, List.take_left]

/-! ## Claim theorems -/

/-- C1: running the script in an environment without matplotlib crashes
with an uncaught `ImportError` — the module-level `import` at line 12
runs before the `try/except` of lines 256-263 even exists, so the
missing-dependency handler never sees it; only exceptions raised inside
the guarded `main()` call are caught (second conjunct). -/
theorem module_import_error_uncaught :
    runScript ⟨false, true, true⟩ (mainEvents create_sample_data, none) =
      Outcome.crashed [] (.importError "matplotlib") ∧
    ∀ run : MainRun, runScript ⟨true, true, true⟩ run = .finished (guardedMain run) :=
  ⟨rfl, fun _ => rfl⟩

/-- C2: the efficiency-ratio sequence of `plot_search_comparison` is the
elementwise division of the linear-search timings by the binary-search
timings; on the fixed dataset its entry for size 10000 (index 2) equals
`8.5 / 0.018`. -/
theorem efficiency_ratio_elementwise (d : SampleData) (i : ℕ)
    (h₁ : i < d.linear.length) (h₂ : i < d.binary.length) :
    ((efficiency_ratio d).getD i 0 = d.linear.getD i 0 / d.binary.getD i 0) ∧
    create_sample_data.search_sizes.getD 2 0 = 10000 ∧
    (efficiency_ratio create_sample_data).getD 2 0 = 8.5 / 0.018 :=
  ⟨zipWith_div_getD _ _ _ h₁ h₂, by decide, rfl⟩

/-- C2 witness: the theorem instantiated at the fixed dataset, index 2. -/
theorem efficiency_ratio_elementwise_witness :
    ((efficiency_ratio create_sample_data).getD 2 0 =
      create_sample_data.linear.getD 2 0 / create_sample_data.binary.getD 2 0) ∧
    create_sample_data.search_sizes.getD 2 0 = 10000 ∧
    (efficiency_ratio create_sample_data).getD 2 0 = 8.5 / 0.018 :=
  efficiency_ratio_elementwise create_sample_data 2 (by decide) (by decide)

/-- C3: the growth-rate bars of `plot_sorting_comparison` equal
`time[i+1] / time[i]` for both the bubble-sort and the merge-sort
timings; on the fixed dataset the bubble-sort growth for the
1000→2000 transition (index 0) equals `45 / 12 = 3.75`. -/
theorem growth_rate_bars (d : SampleData) (i : ℕ)
    (h₁ : i + 1 < d.bubble.length) (h₂ : i + 1 < d.merge.length) :
    ((bubble_growth d).getD i 0 = d.bubble.getD (i + 1) 0 / d.bubble.getD i 0) ∧
    ((merge_growth d).getD i 0 = d.merge.getD (i + 1) 0 / d.merge.getD i 0) ∧
    (bubble_growth create_sample_data).getD 0 0 = 45 / 12 ∧
    (45 : ℚ) / 12 = 3.75 :=
  ⟨growth_getD _ _ h₁, growth_getD _ _ h₂, rfl, by norm_num⟩

/-- C3 witness: the theorem instantiated at the fixed dataset, index 0. -/
theorem growth_rate_bars_witness :
    ((bubble_growth create_sample_data).getD 0 0 =
      create_sample_data.bubble.getD 1 0 / create_sample_data.bubble.getD 0 0) ∧
    ((merge_growth create_sample_data).getD 0 0 =
      create_sample_data.merge.getD 1 0 / create_sample_data.merge.getD 0 0) ∧
    (bubble_growth create_sample_data).getD 0 0 = 45 / 12 ∧
    (45 : ℚ) / 12 = 3.75 :=
  growth_rate_bars create_sample_data 0 (by decide) (by decide)

/-- C4 counterexample: the mesh point `logspacePoint 0 = 10` lies in the
sampled domain, the curve drawn with label `O(2ⁿ)` evaluates there to
`2 ^ log₂ 10 = 10`, while `2` raised to the power `10` is `1024`, and
the two differ — the claim that the `O(2ⁿ)` curve equals `2ⁿ` fails. -/
theorem cheatsheet_two_pow_counterexample :
    logspacePoint 0 = 10 ∧ curveTwoPow 10 = 10 ∧
    (2 : ℝ) ^ (10 : ℝ) = 1024 ∧ (10 : ℝ) ≠ 1024 := by
  refine ⟨?_, ?_, ?_, by norm_num⟩
  · have h : (1 : ℝ) + 3 * ((0 : ℕ) : ℝ) / 999 = 1 := by norm_num
    rw [logspacePoint, h, Real.rpow_one]
  · exact Real.rpow_logb (by norm_num) (by norm_num) (by norm_num)
  · rw [show (10 : ℝ) = ((10 : ℕ) : ℝ) by norm_num, Real.rpow_natCast]
    norm_num

/-- C4 amended: the cheatsheet draws six labelled curves and three
shaded bands, and at every mesh point the curve labelled `O(2ⁿ)` equals
`2 ^ log₂ n`, which is `n` itself (not `2 ^ n`). -/
theorem cheatsheet_curves_amended (i : ℕ) (h : i < 1000) :
    cheatsheetCurves.length = 6 ∧
    cheatsheetCurves.map Prod.fst = cheatsheetLabels ∧
    cheatsheetBands.length = 3 ∧
    curveTwoPow (logspacePoint i) = logspacePoint i := by
  refine ⟨rfl, rfl, rfl, ?_⟩
  exact Real.rpow_logb (by norm_num) (by norm_num)
    (Real.rpow_pos_of_pos (by norm_num) _)

/-- C4 witness: the amended theorem instantiated at mesh index 0. -/
theorem cheatsheet_curves_amended_witness :
    cheatsheetCurves.length = 6 ∧
    cheatsheetCurves.map Prod.fst = cheatsheetLabels ∧
    cheatsheetBands.length = 3 ∧
    curveTwoPow (logspacePoint 0) = logspacePoint 0 :=
  cheatsheet_curves_amended 0 (by norm_num)

/-- C5: the full `main` trace contains exactly four image writes, to the
four fixed paths in order, and exactly one check-mark confirmation print
per file, each directly after its file's write. -/
theorem main_four_saves_with_confirmations :
    main.filter isSavefig =
      [.savefig "sorting_analysis.png", .savefig "search_analysis.png",
       .savefig "fibonacci_analysis.png", .savefig "complexity_cheatsheet.png"] ∧
    main.filter (fun e => isSavefig e || isConfirmation e) =
      [.savefig "sorting_analysis.png",
       .print "✓ Sorting algorithm comparison saved as \x27sorting_analysis.png\x27",
       .savefig "search_analysis.png",
       .print "✓ Search algorithm comparison saved as \x27search_analysis.png\x27",
       .savefig "fibonacci_analysis.png",
       .print "✓ Fibonacci recursion analysis saved as \x27fibonacci_analysis.png\x27",
       .savefig "complexity_cheatsheet.png",
       .print "✓ Complexity reference chart saved as \x27complexity_cheatsheet.png\x27"] :=
  ⟨by decide, by decide⟩

/-- C6: within each plotted dataset all parallel sequences share one
length — 5 for the five sorting sequences, 5 for the three search
sequences, 7 for the five fibonacci sequences. -/
theorem parallel_sequences_equal_length :
    (create_sample_data.sizes.length = 5 ∧ create_sample_data.bubble.length = 5 ∧
     create_sample_data.insertion.length = 5 ∧ create_sample_data.merge.length = 5 ∧
     create_sample_data.quick.length = 5) ∧
    (create_sample_data.search_sizes.length = 5 ∧
     create_sample_data.linear.length = 5 ∧ create_sample_data.binary.length = 5) ∧
    (n_values.length = 7 ∧ naive_calls.length = 7 ∧ memo_calls.length = 7 ∧
     naive_times.length = 7 ∧ memo_times.length = 7) := by
  decide

/-- C7: state-passing run of the two routines that receive the dataset:
the record they hand back is the record `create_sample_data` returned,
field for field — neither routine mutates it. -/
theorem sample_data_not_mutated (d : SampleData) :
    (runSortingThenSearch d).2 = d ∧
    (runSortingThenSearch create_sample_data).2 = create_sample_data :=
  ⟨rfl, rfl⟩

/-- C8: the slice of `main`'s trace produced by
`plot_fibonacci_analysis()` is one fixed block, so it is identical
across runs with any two dataset records: the routine takes no
parameters and reads none of the record's fields. -/
theorem fibonacci_independent_of_dataset (d₁ d₂ : SampleData) :
    fibSegment d₁ = plot_fibonacci_analysis ∧ fibSegment d₁ = fibSegment d₂ :=
  ⟨fibSegment_eq d₁, (fibSegment_eq d₁).trans (fibSegment_eq d₂).symm⟩

/-- C9: `create_sample_data` takes no input and returns the fixed
literal record, so every invocation returns the same eight sequences. -/
theorem create_sample_data_deterministic :
    create_sample_data.sizes = [1000, 2000, 5000, 10000, 20000] ∧
    create_sample_data.bubble = [12, 45, 280, 1100, 4400] ∧
    create_sample_data.insertion = [8, 30, 190, 750, 3000] ∧
    create_sample_data.merge = [2, 4, 12, 25, 55] ∧
    create_sample_data.quick = [1.5, 3.5, 10, 22, 48] ∧
    create_sample_data.search_sizes = [1000, 5000, 10000, 50000, 100000] ∧
    create_sample_data.linear = [0.8, 4.2, 8.5, 42, 85] ∧
    create_sample_data.binary = [0.01, 0.015, 0.018, 0.025, 0.028] :=
  ⟨rfl, rfl, rfl, rfl, rfl, rfl, rfl, rfl⟩

/-- C10: the three x-axis size sequences are strictly increasing. -/
theorem size_sequences_strictly_increasing :
    create_sample_data.sizes = [1000, 2000, 5000, 10000, 20000] ∧
    List.Chain' (· < ·) create_sample_data.sizes ∧
    create_sample_data.search_sizes = [1000, 5000, 10000, 50000, 100000] ∧
    List.Chain' (· < ·) create_sample_data.search_sizes ∧
    n_values = [10, 15, 20, 25, 30, 35, 40] ∧
    List.Chain' (· < ·) n_values := by
  refine ⟨rfl, ?_, rfl, ?_, rfl, ?_⟩ <;>
    norm_num [create_sample_data, n_values, List.chain'_cons]

end PlotAnalysis
